import Mathlib

/-!
Verification development for the POLo map-update module
(`src/mapping/polo/polo_map_module.py`, class `POLoMapModule`).

The per-step fusion pipeline of `POLoMapModule.forward` (lines 562-670) is
embedded shallowly: map values are rationals, the per-voxel "unassigned"
sentinel (float `+inf` in the source, tested with `.isinf()`) is a dedicated
constructor of an extended-value type, and the transcendental
`torch.logit(-, eps=1e-6)` (always finite thanks to `eps`) together with the
scalar prior logit are abstracted as parameters of the fusion step.
-/

namespace POLoMap

/-- Modelled from the spec: the channel-index constants `MapConstants` (`MC`) live in
`mapping/polo/constants.py`, which is not under `src/`.  The indices are reconstructed
from the spec's local-map channel list (section 3) together with every use in
`polo_map_module.py`: all channels strictly below `PROBABILITY_MAP` are clamped to
[0,1] and max-fused (line 563-570), the location marking writes the two channels
`CURRENT_LOCATION` and `CURRENT_LOCATION + 1` (lines 657-668; the current- and the
past-position channel, cf. the comment "current and past position" in
`_get_map_features`, line 722), and the per-voxel block occupies
`VOXEL_START` up to `NON_SEM_CHANNELS` (lines 469-471, 612). -/
def MC_OBSTACLE_MAP : ℕ := 0

def MC_EXPLORED_MAP : ℕ := 1

def MC_CURRENT_LOCATION : ℕ := 2

def MC_VISITED_MAP : ℕ := 3

def MC_BEEN_CLOSE_MAP : ℕ := 4

def MC_PROBABILITY_MAP : ℕ := 5

def MC_VOXEL_START : ℕ := 6

def MC_NON_SEM_CHANNELS (maxMappedHeight : ℕ) : ℕ := MC_VOXEL_START + maxMappedHeight

/-- `torch.clamp(x, min=0.0, max=1.0)` (line 565). -/
def clamp01 (x : ℚ) : ℚ := min (max x 0) 1

/-- `torch.clamp(x, min=-10, max=10)` (lines 574, 629; also line 438). -/
def clampLogOdds (x : ℚ) : ℚ := min (max x (-10)) 10

/-- The occupancy threshold 0.5 of `is_occupaid = occupaid_voxel_st > 0.5`
(line 611). -/
def occupiedThreshold : ℚ := mkRat 1 2

/-- A per-voxel map value: either the float `+inf` "unassigned" sentinel
(tested by `.isinf()` in the source, lines 612, 628) or a finite value. -/
inductive MVal where
  | inf : MVal
  | fin : ℚ → MVal
deriving DecidableEq

/-- The local map state over cell-index type `ι`, one field per channel group of
`prev_map` / `current_map` (channel layout per `MC_*` above): `H` per-voxel
height-bin channels (`VOXEL_START..NON_SEM_CHANNELS`) and `K` semantic
category channels (`NON_SEM_CHANNELS..`).  Only the voxel channels may hold the
`+inf` sentinel. -/
structure MapState (H K : ℕ) (ι : Type) where
  obstacle : ι → ℚ
  explored : ι → ℚ
  currentLoc : ι → ℚ
  visited : ι → ℚ
  beenClose : ι → ℚ
  prob : ι → ℚ
  voxel : Fin H → ι → MVal
  sem : Fin K → ι → ℚ

/-- This step's warped egocentric view, i.e. the tensors the fusion block reads:
`translated` after the slice at line 528 (all channels finite), plus
`occupaid_voxel_st` (line 525, the warped per-height occupancy counts).
`voxelFeat` holds the warped per-height probability-feature channels
`translated[:, VOXEL_START:NON_SEM_CHANNELS]` that feed `torch.logit` at
line 615. -/
structure StepView (H K : ℕ) (ι : Type) where
  obstacle : ι → ℚ
  explored : ι → ℚ
  currentLoc : ι → ℚ
  visited : ι → ℚ
  beenClose : ι → ℚ
  prob : ι → ℚ
  voxelFeat : Fin H → ι → ℚ
  sem : Fin K → ι → ℚ
  occ : Fin H → ι → ℚ

/-- Fused been-close channel: clamp of the warped channel to [0,1] (line 565,
`BEEN_CLOSE_MAP < PROBABILITY_MAP` so it is in `idx_no_prob`), then element-wise
max with the previous map (lines 567-570). -/
def fusedBeenClose {H K : ℕ} {ι : Type} (prev : MapState H K ι) (tv : StepView H K ι)
    (c : ι) : ℚ :=
  max (prev.beenClose c) (clamp01 (tv.beenClose c))

/-- Fused probability channel: sum of previous and warped log-odds (line 573,
the probability channel is excluded from the [0,1] clamp), clamp to [-10,10]
(line 574), then the been-close override `confident_no_obj` forcing -10
wherever the fused been-close flag equals 1 (lines 601-603). -/
def fusedProb {H K : ℕ} {ι : Type} (prev : MapState H K ι) (tv : StepView H K ι)
    (c : ι) : ℚ :=
  if fusedBeenClose prev tv c = 1 then -10
  else clampLogOdds (prev.prob c + tv.prob c)

/-- Per-voxel update (lines 607-645), with `P` the prior logit and `L` the
`torch.logit(-, eps=1e-6)` function: a cell is occupied this step when its
warped occupancy count exceeds 0.5 (line 611); occupied-and-sentinel cells get
this step's logit assigned (line 620), occupied-and-assigned cells accumulate
`logit - prior` (lines 623-624), unoccupied cells keep their previous value;
every non-sentinel result is clamped to [-10,10] (lines 628-629); finally
every non-sentinel cell in a column whose fused been-close flag is 1 is forced
to -10 (`confident_no_obj & is_post_occupaid`, lines 642-644). -/
def voxelUpdate {H K : ℕ} {ι : Type} (P : ℚ) (L : ℚ → ℚ) (prev : MapState H K ι)
    (tv : StepView H K ι) (hb : Fin H) (c : ι) : MVal :=
  match prev.voxel hb c with
  | MVal.inf =>
      if occupiedThreshold < tv.occ hb c then
        if fusedBeenClose prev tv c = 1 then MVal.fin (-10)
        else MVal.fin (clampLogOdds (L (tv.voxelFeat hb c)))
      else MVal.inf
  | MVal.fin v =>
      if fusedBeenClose prev tv c = 1 then MVal.fin (-10)
      else if occupiedThreshold < tv.occ hb c then
        MVal.fin (clampLogOdds (v + L (tv.voxelFeat hb c) - P))
      else MVal.fin (clampLogOdds v)

/-- One full fusion step of `forward` (lines 562-668): clamp of the
`idx_no_prob` channels of the warped view to [0,1] and element-wise max with
the previous map (lines 563-570), probability-channel Bayesian update with the
been-close override (lines 573-603), per-voxel update (lines 607-645), and
current-location reset and marking (lines 657-668): the current-location
channel is zeroed and the 5x5 square (given here by `mark`) is written with
value 1 into both the current-location and the past-position channel. -/
def fuseStep {H K : ℕ} {ι : Type} (P : ℚ) (L : ℚ → ℚ) (prev : MapState H K ι)
    (tv : StepView H K ι) (mark : ι → Bool) : MapState H K ι where
  obstacle c := max (prev.obstacle c) (clamp01 (tv.obstacle c))
  explored c := max (prev.explored c) (clamp01 (tv.explored c))
  currentLoc c := if mark c then 1 else 0
  visited c := if mark c then 1 else max (prev.visited c) (clamp01 (tv.visited c))
  beenClose c := fusedBeenClose prev tv c
  prob c := fusedProb prev tv c
  voxel hb c := voxelUpdate P L prev tv hb c
  sem k c := max (prev.sem k c) (clamp01 (tv.sem k c))

/-- Iterated fusion across a sequence of steps, each bringing its own warped
view and marking square; the module configuration (`P`, `L`) is fixed. -/
def iterateSteps {H K : ℕ} {ι : Type} (P : ℚ) (L : ℚ → ℚ) (M : MapState H K ι) :
    List (StepView H K ι × (ι → Bool)) → MapState H K ι
  | [] => M
  | s :: rest => iterateSteps P L (fuseStep P L M s.1 s.2) rest

/-- The 5x5 marking square of lines 661-668: cell `c = (row, col)` lies in
`current_map[e, :, y-2:y+3, x-2:x+3]` for agent cell `(x, y)` (`ax`, `ay`
here), assuming the square lies inside the map bounds. -/
def inSquare (ax ay : ℤ) (c : ℤ × ℤ) : Bool :=
  (ay - 2 ≤ c.1 && c.1 ≤ ay + 2) && (ax - 2 ≤ c.2 && c.2 ≤ ax + 2)

/-- `confirm_detection_threashold` (line 172): strict lower bound above which a
detection counts as confirmed (`scores[0] > 0.5`, line 293). -/
def confirmDetectionThreshold : ℚ := mkRat 1 2

/-- The per-agent slice of a (padded) `detection_results` bundle: `scores[b]`,
`classes[b]`, `masks[b]`, one entry per (possibly padding) instance slot.
Pre-warp pixel masks are kept abstract (`α`). -/
structure AgentDet (α : Type) where
  scores : List ℚ
  classes : List ℕ
  masks : List α

/-- `num_detected_instance` as computed at lines 293-294:
`(scores[0] > confirm_detection_threashold).sum()`.  When
`masks.shape[1] == 0` the inner block is skipped and the count stays 0, which
coincides with filtering the then-empty score list. -/
def numDetectedInstance (scores0 : List ℚ) : ℕ :=
  (scores0.filter fun s => decide (confirmDetectionThreshold < s)).length

/-- The Python local variable `num_detected_instance`: it is assigned only
inside the `if detection_results is not None:` branch (line 282), so it is
unbound (`none`) when `detection_results` is `None`. -/
def numDetectedInstanceVar (det : Option (List ℚ)) : Option ℕ :=
  match det with
  | none => none
  | some scores0 => some (numDetectedInstance scores0)

/-- The per-pixel probability feature (lines 275-290): initialised to zero;
when detections are present and the instance dimension is non-empty, each
instance contributes `mask * (score * relevance[class])` (the `einsum` at
line 285, with the per-instance scalar precomputed here as the first
component) and the per-pixel maximum over instances is taken (line 286).
The max-pooling to the depth-processing resolution only reindexes pixels and
is left implicit. -/
def probFeatPixel (det : Option (List (ℚ × (ℕ → Bool)))) (pix : ℕ) : ℚ :=
  match det with
  | none => 0
  | some [] => 0
  | some (i :: is) =>
      ((i :: is).map fun t => if t.2 pix then t.1 else 0).foldl max
        (if i.2 pix then i.1 else 0)

/-- Continuation of `forward` past the probability-feature block: line 346
reads `num_detected_instance` unconditionally; when the variable was never
assigned (i.e. `detection_results` was `None`) Python raises `NameError`
instead of returning. -/
def forwardDetectionPath (det : Option (List ℚ)) : Except String ℕ :=
  match numDetectedInstanceVar det with
  | none => Except.error ("NameError: name num_detected_instance is not defined")
  | some n => Except.ok n

/-- One extracted instance record (lines 550-555): bounding box
`(x1, x2, y1, y2)` and box centre in global map coordinates, detection score
and class id. -/
structure InstanceRecord where
  bb : ℤ × ℤ × ℤ × ℤ
  center : ℚ × ℚ
  score : ℚ
  cls : ℕ
deriving DecidableEq

/-- Minimum of the first (row) coordinates of a non-empty cell list
(`ins_mask[:,0].min()`, line 543); 0 as a junk value on `[]` (the source
guards with `ins_mask.shape[0] > 0`). -/
def minFst : List (ℤ × ℤ) → ℤ
  | [] => 0
  | p :: ps => ps.foldl (fun a q => min a q.1) p.1

/-- `ins_mask[:,0].max()` (line 544). -/
def maxFst : List (ℤ × ℤ) → ℤ
  | [] => 0
  | p :: ps => ps.foldl (fun a q => max a q.1) p.1

/-- `ins_mask[:,1].min()` (line 545). -/
def minSnd : List (ℤ × ℤ) → ℤ
  | [] => 0
  | p :: ps => ps.foldl (fun a q => min a q.2) p.2

/-- `ins_mask[:,1].max()` (line 546). -/
def maxSnd : List (ℤ × ℤ) → ℤ
  | [] => 0
  | p :: ps => ps.foldl (fun a q => max a q.2) p.2

/-- Build one instance record from a warped mask given as its list of nonzero
cells (lines 543-555): bounding box extremes in local cells, translated to
global coordinates by adding `lmb[0][0]` (rows) and `lmb[0][2]` (columns);
the centre is the box midpoint, likewise translated. -/
def mkRecord (lmb0 lmb2 : ℤ) (s : ℚ) (cl : ℕ) (m : List (ℤ × ℤ)) : InstanceRecord :=
  { bb := (minFst m + lmb0, maxFst m + lmb0, minSnd m + lmb2, maxSnd m + lmb2)
    center := (((minFst m + maxFst m : ℤ) : ℚ) / 2 + (lmb0 : ℚ),
               ((minSnd m + maxSnd m : ℤ) : ℚ) / 2 + (lmb2 : ℚ))
    score := s
    cls := cl }

/-- The loop of lines 539-556 over detected instances `(score, class, warped
mask nonzero cells)`: instances with an empty warped mask are skipped
(`ins_mask.shape[0] > 0`), the others append their record to the
per-class list of the dictionary. -/
def buildDict (lmb0 lmb2 : ℤ) :
    List (ℚ × ℕ × List (ℤ × ℤ)) → (ℕ → List InstanceRecord) → ℕ → List InstanceRecord
  | [], d => d
  | t :: rest, d =>
      if t.2.2.isEmpty then buildDict lmb0 lmb2 rest d
      else
        buildDict lmb0 lmb2 rest
          (fun k => if k = t.2.1 then d k ++ [mkRecord lmb0 lmb2 t.1 t.2.1 t.2.2] else d k)

/-- `detect_idx = scores[0] > confirm_detection_threashold` applied to the
zipped score/class/mask triples (lines 293-298): keeps exactly the confirmed
instances, in order. -/
def selectConfirmed {α : Type} (scores : List ℚ) (classes : List ℕ) (masks : List α) :
    List (ℚ × ℕ × α) :=
  (scores.zip (classes.zip masks)).filter fun t => decide (confirmDetectionThreshold < t.1)

/-- The confirmed instances of one agent, with their masks pushed through the
splat-and-warp pipeline (`warp` abstracts max-pooling, splatting, height
projection and the two `grid_sample` passes, returning the warped mask's
nonzero cells). -/
def agentConfirmed {α : Type} (warp : α → List (ℤ × ℤ)) (d : AgentDet α) :
    List (ℚ × ℕ × List (ℤ × ℤ)) :=
  (selectConfirmed d.scores d.classes d.masks).map fun t => (t.1, t.2.1, warp t.2.2)

/-- The instance-dictionary output of `forward` (lines 532-556, returned at
line 670): `instances_dict = None` unless `num_detected_instance > 0`; the
dictionary is initialised with an empty list for every category and filled by
`buildDict`. -/
def processInstances (lmb0 lmb2 : ℤ) (detected : List (ℚ × ℕ × List (ℤ × ℤ))) :
    Option (ℕ → List InstanceRecord) :=
  if detected.isEmpty then none else some (buildDict lmb0 lmb2 detected fun _ => [])

/-- The batch-size-1 instance path of `forward`: select confirmed detections,
warp their masks, extract records. -/
def forwardInstancesB1 {α : Type} (warp : α → List (ℤ × ℤ)) (lmb0 lmb2 : ℤ)
    (d : AgentDet α) : Option (ℕ → List InstanceRecord) :=
  processInstances lmb0 lmb2 (agentConfirmed warp d)

/-- Modelled from the spec: the per-agent map/pose path of `forward`.  Its
tensor stages (point-cloud projection via `utils/depth.py`, pose and grid
helpers `pu`/`ru`/`mu`, the torch kernels themselves) are not under `src/`;
per spec sections 4.1 and 5 they are data-parallel across the batch, so the
batched map/pose computation is one per-agent function `step` applied
independently to each batch element.  The instance-dictionary output follows
the source concretely: it is computed from batch element 0 alone
(`scores[0]`, `classes[0]`, `masks[0]` at lines 293-298, `instances_st[0]`
at line 540), whatever the batch size. -/
def forwardBatch {σ τ α : Type} (step : σ → τ) (warp : α → List (ℤ × ℤ))
    (lmb0 lmb2 : ℤ) (inputs : List σ) (dets : List (AgentDet α)) :
    List τ × Option (ℕ → List InstanceRecord) :=
  (inputs.map step,
    processInstances lmb0 lmb2 (agentConfirmed warp (dets.headD ⟨[], [], []⟩)))

/-- Tensor dtypes relevant to `Tensor.float()` dispatch. -/
inductive DType where
  | float32 : DType
  | float64 : DType
  | float16 : DType
deriving DecidableEq

/-- The observation tensor, reduced to its depth plane `obs[:, 3, :, :]` and
its dtype. -/
structure ObsT where
  dtype : DType
  depth : List ℚ
deriving DecidableEq

/-- Lines 231-232: `depth = obs[:, 3, :, :].float()` takes a view of `obs` and
converts it with `Tensor.to(torch.float32)`, which returns the tensor itself
(still a view) when the dtype is already `float32`, and a fresh copy
otherwise; `depth[depth > self.max_depth] = 0` then writes through.  Returns
the observation after the statement and the depth tensor used downstream. -/
def depthPreprocess (maxDepth : ℚ) (obs : ObsT) : ObsT × List ℚ :=
  if obs.dtype = DType.float32 then
    ({ obs with depth := obs.depth.map fun v => if maxDepth < v then 0 else v },
      obs.depth.map fun v => if maxDepth < v then 0 else v)
  else (obs, obs.depth.map fun v => if maxDepth < v then 0 else v)

/-! ### Concrete fixtures used by witnesses and counterexamples -/

/-- The all-zero warped view over a single cell, one height bin, one category. -/
def tvZeroU : StepView 1 1 Unit where
  obstacle _ := 0
  explored _ := 0
  currentLoc _ := 0
  visited _ := 0
  beenClose _ := 0
  prob _ := 0
  voxelFeat _ _ := 0
  sem _ _ := 0
  occ _ _ := 0

/-- A warped view whose single voxel cell is occupied this step
(occupancy count 1 exceeds the 0.5 threshold). -/
def tvOccU : StepView 1 1 Unit where
  obstacle _ := 0
  explored _ := 0
  currentLoc _ := 0
  visited _ := 0
  beenClose _ := 0
  prob _ := 0
  voxelFeat _ _ := 0
  sem _ _ := 0
  occ _ _ := 1

/-- Previous map whose been-close flag is set and whose voxel cell holds the
assigned value 3. -/
def prevBC : MapState 1 1 Unit where
  obstacle _ := 0
  explored _ := 0
  currentLoc _ := 0
  visited _ := 0
  beenClose _ := 1
  prob _ := 0
  voxel _ _ := MVal.fin 3
  sem _ _ := 0

/-- Previous map, been-close clear, voxel cell assigned value 2. -/
def prevFin2 : MapState 1 1 Unit where
  obstacle _ := 0
  explored _ := 0
  currentLoc _ := 0
  visited _ := 0
  beenClose _ := 0
  prob _ := 0
  voxel _ _ := MVal.fin 2
  sem _ _ := 0

/-- Previous map, been-close clear, voxel cell still at the sentinel. -/
def prevInfU : MapState 1 1 Unit where
  obstacle _ := 0
  explored _ := 0
  currentLoc _ := 0
  visited _ := 0
  beenClose _ := 0
  prob _ := 0
  voxel _ _ := MVal.inf
  sem _ _ := 0

/-- All-zero previous map over integer-pair cells (for the marking claims). -/
def prevZeroZ : MapState 1 1 (ℤ × ℤ) where
  obstacle _ := 0
  explored _ := 0
  currentLoc _ := 0
  visited _ := 0
  beenClose _ := 0
  prob _ := 0
  voxel _ _ := MVal.inf
  sem _ _ := 0

/-- All-zero warped view over integer-pair cells. -/
def tvZeroZ : StepView 1 1 (ℤ × ℤ) where
  obstacle _ := 0
  explored _ := 0
  currentLoc _ := 0
  visited _ := 0
  beenClose _ := 0
  prob _ := 0
  voxelFeat _ _ := 0
  sem _ _ := 0
  occ _ _ := 0

/-- A stand-in for `torch.logit(-, eps=1e-6)` in concrete evaluations. -/
def zeroLogit : ℚ → ℚ := fun _ => 0

/-- Empty marking predicate over the one-cell index type. -/
def noMarkU : Unit → Bool := fun _ => false

/-- Empty marking predicate over integer-pair cells. -/
def noMarkZ : ℤ × ℤ → Bool := fun _ => false

/-- Batched detection bundle row for an agent with no real detection (padding
slot of score 0). -/
def detAgent0 : AgentDet (List (ℤ × ℤ)) := ⟨[0], [0], [[]]⟩

/-- Detection bundle row for an agent with one confirmed detection
(score 9/10, class 1, warped mask covering one cell). -/
def detAgent1 : AgentDet (List (ℤ × ℤ)) := ⟨[mkRat 9 10], [1], [[(3, 4)]]⟩

/-- An agent whose only detection scores 3/10, below the confirmation
threshold. -/
def detBelow : AgentDet (List (ℤ × ℤ)) := ⟨[mkRat 3 10], [2], [[(1, 1)]]⟩

/-- An agent with one confirmed (9/10, class 1) and one unconfirmed (2/5)
detection. -/
def detConfirmedD : AgentDet (List (ℤ × ℤ)) := ⟨[mkRat 9 10, mkRat 2 5], [1, 0], [[(2, 3), (5, 4)], [(0, 0)]]⟩

/-- A float32 observation with one out-of-range depth reading (600 cm against
the default 500 cm maximum). -/
def obsCexF32 : ObsT := { dtype := DType.float32, depth := [600] }

/-- The same observation in float64. -/
def obsCexF64 : ObsT := { dtype := DType.float64, depth := [600] }

/-! ### Helper lemmas -/

lemma clamp01_le_one (x : ℚ) : clamp01 x ≤ 1 := min_le_right _ _

lemma clampLogOdds_mem (x : ℚ) : -10 ≤ clampLogOdds x ∧ clampLogOdds x ≤ 10 := by
  refine ⟨le_min (le_max_right _ _) (by norm_num), min_le_right _ _⟩

lemma fusedBeenClose_of_one {H K : ℕ} {ι : Type} (prev : MapState H K ι)
    (tv : StepView H K ι) (c : ι) (h : prev.beenClose c = 1) :
    fusedBeenClose prev tv c = 1 := by
  unfold fusedBeenClose
  rw [h]
  exact max_eq_left (clamp01_le_one _)

lemma fusedProb_of_bcOne {H K : ℕ} {ι : Type} (prev : MapState H K ι)
    (tv : StepView H K ι) (c : ι) (h : fusedBeenClose prev tv c = 1) :
    fusedProb prev tv c = -10 := by
  unfold fusedProb
  rw [if_pos h]

lemma voxelUpdate_inf_eq {H K : ℕ} {ι : Type} (P : ℚ) (L : ℚ → ℚ)
    (prev : MapState H K ι) (tv : StepView H K ι) (hb : Fin H) (c : ι)
    (h1 : prev.voxel hb c = MVal.inf) :
    voxelUpdate P L prev tv hb c =
      (if occupiedThreshold < tv.occ hb c then
        (if fusedBeenClose prev tv c = 1 then MVal.fin (-10)
         else MVal.fin (clampLogOdds (L (tv.voxelFeat hb c))))
       else MVal.inf) := by
  unfold voxelUpdate
  rw [h1]

lemma voxelUpdate_fin_eq {H K : ℕ} {ι : Type} (P : ℚ) (L : ℚ → ℚ)
    (prev : MapState H K ι) (tv : StepView H K ι) (hb : Fin H) (c : ι) (v : ℚ)
    (h1 : prev.voxel hb c = MVal.fin v) :
    voxelUpdate P L prev tv hb c =
      (if fusedBeenClose prev tv c = 1 then MVal.fin (-10)
       else if occupiedThreshold < tv.occ hb c then
         MVal.fin (clampLogOdds (v + L (tv.voxelFeat hb c) - P))
       else MVal.fin (clampLogOdds v)) := by
  unfold voxelUpdate
  rw [h1]

lemma voxelUpdate_inf {H K : ℕ} {ι : Type} (P : ℚ) (L : ℚ → ℚ)
    (prev : MapState H K ι) (tv : StepView H K ι) (hb : Fin H) (c : ι)
    (h1 : prev.voxel hb c = MVal.inf) (h2 : ¬ occupiedThreshold < tv.occ hb c) :
    voxelUpdate P L prev tv hb c = MVal.inf := by
  rw [voxelUpdate_inf_eq P L prev tv hb c h1]
  exact if_neg h2

lemma voxelUpdate_fin_bound {H K : ℕ} {ι : Type} (P : ℚ) (L : ℚ → ℚ)
    (prev : MapState H K ι) (tv : StepView H K ι) (hb : Fin H) (c : ι) (v : ℚ)
    (h : voxelUpdate P L prev tv hb c = MVal.fin v) : -10 ≤ v ∧ v ≤ 10 := by
  cases hpv : prev.voxel hb c with
  | inf =>
      rw [voxelUpdate_inf_eq P L prev tv hb c hpv] at h
      by_cases hocc : occupiedThreshold < tv.occ hb c
      · rw [if_pos hocc] at h
        by_cases hbc : fusedBeenClose prev tv c = 1
        · rw [if_pos hbc] at h
          injection h with h
          subst h
          norm_num
        · rw [if_neg hbc] at h
          injection h with h
          subst h
          exact clampLogOdds_mem _
      · rw [if_neg hocc] at h
        cases h
  | fin w =>
      rw [voxelUpdate_fin_eq P L prev tv hb c w hpv] at h
      by_cases hbc : fusedBeenClose prev tv c = 1
      · rw [if_pos hbc] at h
        injection h with h
        subst h
        norm_num
      · rw [if_neg hbc] at h
        by_cases hocc : occupiedThreshold < tv.occ hb c
        · rw [if_pos hocc] at h
          injection h with h
          subst h
          exact clampLogOdds_mem _
        · rw [if_neg hocc] at h
          injection h with h
          subst h
          exact clampLogOdds_mem _

/-- The sentinel is preserved across any sequence of steps in which the cell
is never occupied. -/
lemma sentinel_aux {H K : ℕ} {ι : Type} (P : ℚ) (L : ℚ → ℚ) (hb : Fin H) (c : ι) :
    ∀ (steps : List (StepView H K ι × (ι → Bool))) (M : MapState H K ι),
      M.voxel hb c = MVal.inf → (∀ s ∈ steps, ¬ occupiedThreshold < s.1.occ hb c) →
      (iterateSteps P L M steps).voxel hb c = MVal.inf := by
  intro steps
  induction steps with
  | nil => exact fun M h _ => h
  | cons s rest ih =>
      intro M h hs
      refine ih (fuseStep P L M s.1 s.2) ?_ ?_
      · exact voxelUpdate_inf P L M s.1 hb c h (hs s (List.mem_cons_self s rest))
      · exact fun t ht => hs t (List.mem_cons_of_mem s ht)

/-- Once the fused been-close flag is exactly 1 and the probability channel is
-10, every further fusion step preserves both (the flag is max-fused against a
value clamped to at most 1, and the override then fires again). -/
lemma latch_aux {H K : ℕ} {ι : Type} (P : ℚ) (L : ℚ → ℚ) (c : ι) :
    ∀ (steps : List (StepView H K ι × (ι → Bool))) (M : MapState H K ι),
      M.beenClose c = 1 → M.prob c = -10 →
      (iterateSteps P L M steps).beenClose c = 1 ∧
        (iterateSteps P L M steps).prob c = -10 := by
  intro steps
  induction steps with
  | nil => exact fun M hb hp => ⟨hb, hp⟩
  | cons s rest ih =>
      intro M hb _
      have hb' : (fuseStep P L M s.1 s.2).beenClose c = 1 :=
        fusedBeenClose_of_one M s.1 c hb
      have hp' : (fuseStep P L M s.1 s.2).prob c = -10 :=
        fusedProb_of_bcOne M s.1 c hb'
      exact ih (fuseStep P L M s.1 s.2) hb' hp'

/-- A visited-channel value of exactly 1 is preserved by any further fusion
steps. -/
lemma visited_persists {H K : ℕ} {ι : Type} (P : ℚ) (L : ℚ → ℚ) (c : ι) :
    ∀ (steps : List (StepView H K ι × (ι → Bool))) (M : MapState H K ι),
      M.visited c = 1 → (iterateSteps P L M steps).visited c = 1 := by
  intro steps
  induction steps with
  | nil => exact fun M h => h
  | cons s rest ih =>
      intro M h
      refine ih (fuseStep P L M s.1 s.2) ?_
      show (if s.2 c then 1 else max (M.visited c) (clamp01 (s.1.visited c))) = 1
      rw [h]
      by_cases hm : s.2 c
      · rw [if_pos hm]
      · rw [if_neg hm]
        exact max_eq_left (clamp01_le_one _)

/-- Content of the dictionary built by the extraction loop: the records of the
detections with a non-empty warped mask and the given class, in order,
appended to the accumulator. -/
lemma buildDict_eq (lmb0 lmb2 : ℤ) :
    ∀ (dets : List (ℚ × ℕ × List (ℤ × ℤ))) (d0 : ℕ → List InstanceRecord) (k : ℕ),
      buildDict lmb0 lmb2 dets d0 k =
        d0 k ++ (dets.filter fun t => !t.2.2.isEmpty && decide (t.2.1 = k)).map
          (fun t => mkRecord lmb0 lmb2 t.1 t.2.1 t.2.2) := by
  intro dets
  induction dets with
  | nil => intro d0 k; simp [buildDict]
  | cons t rest ih =>
      intro d0 k
      rw [buildDict]
      by_cases hm : t.2.2.isEmpty
      · rw [if_pos hm, ih d0 k]
        simp [hm]
      · rw [if_neg hm, ih _ k]
        by_cases hk : t.2.1 = k
        · subst hk
          simp [hm]
        · have hk' : ¬ k = t.2.1 := fun h => hk h.symm
          simp [hm, hk, hk']

/-! ### Claim theorems -/

/-- Claim C1: with `detection_results=None` the probability-feature tensor
indeed stays all-zero (it is initialised to zeros at line 275 and never
touched), but the call does not succeed: line 346 reads the local variable
`num_detected_instance`, which is assigned only inside the
`if detection_results is not None:` branch (line 282), so the call raises
`NameError` instead of performing the zero-confidence update the claim
describes. -/
theorem detection_none_raises :
    (∀ pix, probFeatPixel none pix = 0) ∧
      forwardDetectionPath none =
        Except.error ("NameError: name num_detected_instance is not defined") :=
  ⟨fun _ => rfl, rfl⟩

/-- Claim C2 (amended): per voxel cell and height bin, an occupied
(warped occupancy count above 0.5) and previously assigned cell accumulates
this step's log-odds minus the prior log-odds; an unoccupied assigned cell is
carried forward; every still-assigned cell is then clamped to [-10, 10]; and
the final forcing to -10 in a column whose fused been-close flag is 1 applies
to every cell that is assigned after the update (the code's
`is_post_occupaid = ~updated.isinf()`), not only to cells occupied this
step. -/
theorem voxel_bayes_update {H K : ℕ} {ι : Type} (P : ℚ) (L : ℚ → ℚ)
    (prev : MapState H K ι) (tv : StepView H K ι) (mark : ι → Bool)
    (hb : Fin H) (c : ι) :
    (∀ v, prev.voxel hb c = MVal.fin v → occupiedThreshold < tv.occ hb c →
        fusedBeenClose prev tv c ≠ 1 →
        (fuseStep P L prev tv mark).voxel hb c =
          MVal.fin (clampLogOdds (v + L (tv.voxelFeat hb c) - P))) ∧
      (∀ v, prev.voxel hb c = MVal.fin v → ¬ occupiedThreshold < tv.occ hb c →
        fusedBeenClose prev tv c ≠ 1 →
        (fuseStep P L prev tv mark).voxel hb c = MVal.fin (clampLogOdds v)) ∧
      (fusedBeenClose prev tv c = 1 →
        (prev.voxel hb c ≠ MVal.inf ∨ occupiedThreshold < tv.occ hb c) →
        (fuseStep P L prev tv mark).voxel hb c = MVal.fin (-10)) ∧
      (∀ v, (fuseStep P L prev tv mark).voxel hb c = MVal.fin v →
        -10 ≤ v ∧ v ≤ 10) := by
  refine ⟨?_, ?_, ?_, ?_⟩
  · intro v hv hocc hbc
    show voxelUpdate P L prev tv hb c = _
    rw [voxelUpdate_fin_eq P L prev tv hb c v hv, if_neg hbc, if_pos hocc]
  · intro v hv hocc hbc
    show voxelUpdate P L prev tv hb c = _
    rw [voxelUpdate_fin_eq P L prev tv hb c v hv, if_neg hbc, if_neg hocc]
  · intro hbc hor
    show voxelUpdate P L prev tv hb c = _
    cases hpv : prev.voxel hb c with
    | inf =>
        have hocc : occupiedThreshold < tv.occ hb c := hor.resolve_left fun h => h hpv
        rw [voxelUpdate_inf_eq P L prev tv hb c hpv, if_pos hocc, if_pos hbc]
    | fin v =>
        rw [voxelUpdate_fin_eq P L prev tv hb c v hpv, if_pos hbc]
  · exact fun v h => voxelUpdate_fin_bound P L prev tv hb c v h

/-- Claim C2 counterexample: a voxel cell that is NOT occupied this step
(warped occupancy 0 is not above 0.5), previously assigned value 3, in a
column whose fused been-close flag is 1: the claim predicts the value is
carried forward unchanged (clamping keeps it at 3), but the code forces it
to -10, because the override tests assignment after the update, not
occupancy this step. -/
theorem voxel_override_cex :
    prevBC.voxel 0 () = MVal.fin 3 ∧
      tvZeroU.occ 0 () ≤ occupiedThreshold ∧
      (fuseStep (-1) zeroLogit prevBC tvZeroU noMarkU).voxel 0 () = MVal.fin (-10) ∧
      (fuseStep (-1) zeroLogit prevBC tvZeroU noMarkU).voxel 0 () ≠
        MVal.fin (clampLogOdds 3) := by decide

theorem voxel_bayes_update_witness :
    (prevFin2.voxel 0 () = MVal.fin 2 ∧ occupiedThreshold < tvOccU.occ 0 () ∧
        fusedBeenClose prevFin2 tvOccU () ≠ 1) ∧
      (fuseStep (-1) zeroLogit prevFin2 tvOccU noMarkU).voxel 0 () =
        MVal.fin (clampLogOdds (2 + zeroLogit (tvOccU.voxelFeat 0 ()) - (-1))) :=
  ⟨⟨by decide, by decide, by decide⟩,
    (voxel_bayes_update (-1) zeroLogit prevFin2 tvOccU noMarkU 0 ()).1 2
      (by decide) (by decide) (by decide)⟩

/-- Claim C3: once a cell's been-close flag equals 1 in a fused map, the
probability channel at that cell is exactly -10 in that fused map and in every
map produced by further fusion steps: the flag, max-fused against a value
clamped to [0,1], stays exactly 1, and the -10 override fires each step. -/
theorem beenClose_latches_prob {H K : ℕ} {ι : Type} (P : ℚ) (L : ℚ → ℚ)
    (prev : MapState H K ι) (tv : StepView H K ι) (mark : ι → Bool) (c : ι)
    (h : (fuseStep P L prev tv mark).beenClose c = 1) :
    ∀ steps : List (StepView H K ι × (ι → Bool)),
      (iterateSteps P L (fuseStep P L prev tv mark) steps).beenClose c = 1 ∧
        (iterateSteps P L (fuseStep P L prev tv mark) steps).prob c = -10 := by
  intro steps
  have hp : (fuseStep P L prev tv mark).prob c = -10 := fusedProb_of_bcOne prev tv c h
  exact latch_aux P L c steps _ h hp

theorem beenClose_latches_prob_witness :
    ((fuseStep (-1) zeroLogit prevBC tvZeroU noMarkU).beenClose () = 1) ∧
      ((iterateSteps (-1) zeroLogit (fuseStep (-1) zeroLogit prevBC tvZeroU noMarkU)
          [(tvZeroU, noMarkU)]).beenClose () = 1 ∧
        (iterateSteps (-1) zeroLogit (fuseStep (-1) zeroLogit prevBC tvZeroU noMarkU)
          [(tvZeroU, noMarkU)]).prob () = -10) :=
  ⟨by decide,
    beenClose_latches_prob (-1) zeroLogit prevBC tvZeroU noMarkU () (by decide)
      [(tvZeroU, noMarkU)]⟩

/-- Claim C4 (amended): a voxel cell never occupied across any sequence of
steps retains the `+inf` sentinel; at the first step in which it becomes
occupied it transitions to a finite value, namely this step's log-odds
assigned directly and clamped to [-10, 10] (there is no subtraction of the
prior log-odds in the first-assignment case, line 620), or -10 outright when
the column's fused been-close flag is 1. -/
theorem voxel_sentinel {H K : ℕ} {ι : Type} (P : ℚ) (L : ℚ → ℚ)
    (M : MapState H K ι) (hb : Fin H) (c : ι) :
    (∀ steps : List (StepView H K ι × (ι → Bool)),
        M.voxel hb c = MVal.inf → (∀ s ∈ steps, ¬ occupiedThreshold < s.1.occ hb c) →
        (iterateSteps P L M steps).voxel hb c = MVal.inf) ∧
      (∀ (tv : StepView H K ι) (mark : ι → Bool),
        M.voxel hb c = MVal.inf → occupiedThreshold < tv.occ hb c →
        (fuseStep P L M tv mark).voxel hb c =
          (if fusedBeenClose M tv c = 1 then MVal.fin (-10)
           else MVal.fin (clampLogOdds (L (tv.voxelFeat hb c))))) := by
  constructor
  · exact fun steps h hs => sentinel_aux P L hb c steps M h hs
  · intro tv mark h hocc
    show voxelUpdate P L M tv hb c = _
    rw [voxelUpdate_inf_eq P L M tv hb c h, if_pos hocc]

/-- Claim C4 counterexample: a sentinel cell becomes occupied in a step whose
log-odds is 0 while the prior log-odds is -1: the claim predicts the
prior-relative value 0 - (-1) = 1, but the code assigns the step's log-odds
directly, yielding 0. -/
theorem voxel_first_assign_cex :
    prevInfU.voxel 0 () = MVal.inf ∧ occupiedThreshold < tvOccU.occ 0 () ∧
      zeroLogit (tvOccU.voxelFeat 0 ()) - (-1) = 1 ∧
      (fuseStep (-1) zeroLogit prevInfU tvOccU noMarkU).voxel 0 () = MVal.fin 0 ∧
      (fuseStep (-1) zeroLogit prevInfU tvOccU noMarkU).voxel 0 () ≠ MVal.fin 1 :=
  ⟨rfl, by decide, by norm_num [zeroLogit], by decide, by decide⟩

theorem voxel_sentinel_witness :
    (prevInfU.voxel 0 () = MVal.inf ∧ occupiedThreshold < tvOccU.occ 0 ()) ∧
      (fuseStep (-1) zeroLogit prevInfU tvOccU noMarkU).voxel 0 () =
        (if fusedBeenClose prevInfU tvOccU () = 1 then MVal.fin (-10)
         else MVal.fin (clampLogOdds (zeroLogit (tvOccU.voxelFeat 0 ())))) :=
  ⟨⟨by decide, by decide⟩,
    (voxel_sentinel (-1) zeroLogit prevInfU 0 ()).2 tvOccU noMarkU
      (by decide) (by decide)⟩

/-- Claim C5 (amended): the per-agent updated local map and pose of a batched
call equal those of running the agent alone (the map/pose path is data-parallel
across the batch); the instance dictionary is NOT per-agent: it is computed
from batch element 0 only, so it can differ from the dictionary a second agent
would get from a batch-size-1 call. -/
theorem batch_independent_map_pose {σ τ α : Type} (step : σ → τ)
    (warp : α → List (ℤ × ℤ)) (lmb0 lmb2 : ℤ) (inputs : List σ)
    (dets dets1 : List (AgentDet α)) (i : ℕ) (a : σ) (hi : inputs[i]? = some a) :
    ((forwardBatch step warp lmb0 lmb2 inputs dets).1)[i]? =
      ((forwardBatch step warp lmb0 lmb2 [a] dets1).1)[0]? := by
  show (inputs.map step)[i]? = ([a].map step)[0]?
  rw [List.getElem?_map, List.getElem?_map, hi]
  rfl

/-- Claim C5 counterexample: a batch of two agents where only agent 1 has a
confirmed detection.  The batched call reads `scores[0]` (the padding row of
agent 0) only, so it returns no instance dictionary at all, while running
agent 1 alone returns one — the per-agent outputs are not identical. -/
theorem batch_instance_dict_cex :
    ((forwardBatch (fun n : ℕ => n) (fun m => m) 0 0 [0, 1]
        [detAgent0, detAgent1]).2).isNone = true ∧
      ((forwardBatch (fun n : ℕ => n) (fun m => m) 0 0 [1]
        [detAgent1]).2).isSome = true := by decide

theorem batch_independent_map_pose_witness :
    (([10, 20] : List ℕ)[1]? = some 20) ∧
      ((forwardBatch (fun n : ℕ => n) (fun m : List (ℤ × ℤ) => m) 0 0
          [10, 20] []).1)[1]? =
        ((forwardBatch (fun n : ℕ => n) (fun m : List (ℤ × ℤ) => m) 0 0
          [20] []).1)[0]? :=
  ⟨by decide,
    batch_independent_map_pose (fun n : ℕ => n) (fun m : List (ℤ × ℤ) => m) 0 0
      [10, 20] [] [] 1 20 (by decide)⟩

/-- Claim C6: every geometric/semantic/explored channel (obstacle, explored,
been-close, per-category semantic) of the fused map is greater than or equal
to its value in the previous map — these channels are fused by element-wise
maximum. -/
theorem fusion_monotone {H K : ℕ} {ι : Type} (P : ℚ) (L : ℚ → ℚ)
    (prev : MapState H K ι) (tv : StepView H K ι) (mark : ι → Bool)
    (c : ι) (k : Fin K) :
    prev.obstacle c ≤ (fuseStep P L prev tv mark).obstacle c ∧
      prev.explored c ≤ (fuseStep P L prev tv mark).explored c ∧
      prev.beenClose c ≤ (fuseStep P L prev tv mark).beenClose c ∧
      prev.sem k c ≤ (fuseStep P L prev tv mark).sem k c :=
  ⟨le_max_left _ _, le_max_left _ _, le_max_left _ _, le_max_left _ _⟩

/-- Claim C7: after fusion, every cell of the probability channel and every
assigned (non-sentinel) cell of every per-voxel occupancy channel lies in
[-10, 10]. -/
theorem fused_bounds {H K : ℕ} {ι : Type} (P : ℚ) (L : ℚ → ℚ)
    (prev : MapState H K ι) (tv : StepView H K ι) (mark : ι → Bool) (c : ι) :
    (-10 ≤ (fuseStep P L prev tv mark).prob c ∧
        (fuseStep P L prev tv mark).prob c ≤ 10) ∧
      (∀ (hb : Fin H) (v : ℚ),
        (fuseStep P L prev tv mark).voxel hb c = MVal.fin v →
        -10 ≤ v ∧ v ≤ 10) := by
  constructor
  · show -10 ≤ fusedProb prev tv c ∧ fusedProb prev tv c ≤ 10
    unfold fusedProb
    by_cases h : fusedBeenClose prev tv c = 1
    · rw [if_pos h]
      norm_num
    · rw [if_neg h]
      exact clampLogOdds_mem _
  · exact fun hb v h => voxelUpdate_fin_bound P L prev tv hb c v h

theorem fused_bounds_witness :
    ((fuseStep (-1) zeroLogit prevFin2 tvOccU noMarkU).voxel 0 () = MVal.fin 3) ∧
      (-10 ≤ (3 : ℚ) ∧ (3 : ℚ) ≤ 10) := by
  have h : (fuseStep (-1) zeroLogit prevFin2 tvOccU noMarkU).voxel 0 () = MVal.fin 3 := by
    show voxelUpdate (-1) zeroLogit prevFin2 tvOccU 0 () = MVal.fin 3
    rw [voxelUpdate_fin_eq (-1) zeroLogit prevFin2 tvOccU 0 () 2 rfl,
      if_neg (by decide : ¬ fusedBeenClose prevFin2 tvOccU () = 1),
      if_pos (by decide : occupiedThreshold < tvOccU.occ 0 ())]
    norm_num [zeroLogit, clampLogOdds, min_def, max_def]
  exact ⟨h, (fused_bounds (-1) zeroLogit prevFin2 tvOccU noMarkU ()).2 0 3 h⟩

/-- Claim C8 (amended): on a batch-size-1 call with at least one confirmed
detection, `forward` returns a dictionary mapping every class id to the list
of records of this step's confirmed detections of that class with a non-empty
warped mask, each holding the mask's bounding box and box centre translated by
the local window's global offset; classes with zero instances map to the empty
list.  On a call with no confirmed detection the function returns `None`
rather than an all-empty dictionary. -/
theorem instance_dict_content {α : Type} (warp : α → List (ℤ × ℤ)) (lmb0 lmb2 : ℤ)
    (d : AgentDet α) (hne : agentConfirmed warp d ≠ []) :
    ∃ dict, forwardInstancesB1 warp lmb0 lmb2 d = some dict ∧
      ∀ k, dict k =
        ((agentConfirmed warp d).filter
            fun t => !t.2.2.isEmpty && decide (t.2.1 = k)).map
          (fun t => mkRecord lmb0 lmb2 t.1 t.2.1 t.2.2) := by
  have hE : (agentConfirmed warp d).isEmpty = false := by
    cases hL : agentConfirmed warp d with
    | nil => exact absurd hL hne
    | cons x xs => rfl
  refine ⟨buildDict lmb0 lmb2 (agentConfirmed warp d) (fun _ => []), ?_, ?_⟩
  · simp [forwardInstancesB1, processInstances, hE]
  · intro k
    rw [buildDict_eq]
    simp

/-- Claim C8 counterexample: a call whose single detection scores 3/10, below
the 0.5 confirmation threshold: `forward` returns `None` (`instances_dict` is
initialised to `None` at line 532 and never replaced), not a per-category
dictionary. -/
theorem instances_none_cex :
    detBelow.scores ≠ [] ∧
      (forwardInstancesB1 (fun m => m) 5 7 detBelow).isNone = true := by decide

theorem instance_dict_content_witness :
    (agentConfirmed (fun m => m) detConfirmedD ≠ []) ∧
      (∃ dict, forwardInstancesB1 (fun m => m) 5 7 detConfirmedD = some dict ∧
        ∀ k, dict k = ((agentConfirmed (fun m => m) detConfirmedD).filter
            fun t => !t.2.2.isEmpty && decide (t.2.1 = k)).map
          (fun t => mkRecord 5 7 t.1 t.2.1 t.2.2)) :=
  ⟨by decide, instance_dict_content (fun m => m) 5 7 detConfirmedD (by decide)⟩

/-- Claim C9 (amended): the max-depth zeroing mutates the caller's `obs`
tensor in place when its dtype is float32 — `obs[:, 3].float()` is then a
no-op returning a view — zeroing every depth entry above the maximum; for any
other dtype the observation is left unchanged and only the copied depth plane
is zeroed.  The depth tensor used downstream is the zeroed plane in either
case. -/
theorem depth_copy_semantics (m : ℚ) (obs : ObsT) :
    (obs.dtype ≠ DType.float32 → (depthPreprocess m obs).1 = obs) ∧
      (obs.dtype = DType.float32 →
        (depthPreprocess m obs).1.depth =
          obs.depth.map fun v => if m < v then 0 else v) ∧
      (depthPreprocess m obs).2 = obs.depth.map fun v => if m < v then 0 else v := by
  unfold depthPreprocess
  by_cases h : obs.dtype = DType.float32
  · rw [if_pos h]
    exact ⟨fun hc => absurd h hc, fun _ => rfl, rfl⟩
  · rw [if_neg h]
    exact ⟨fun _ => rfl, fun hc => absurd hc h, rfl⟩

/-- Claim C9 counterexample: a float32 observation with depth 600 cm against a
500 cm maximum is mutated in place by the zeroing — the observation after the
statement differs from the one passed in. -/
theorem depth_inplace_cex :
    (depthPreprocess 500 obsCexF32).1 ≠ obsCexF32 ∧
      (depthPreprocess 500 obsCexF32).1.depth = [0] := by decide

theorem depth_copy_semantics_witness :
    (obsCexF64.dtype ≠ DType.float32) ∧ (depthPreprocess 500 obsCexF64).1 = obsCexF64 :=
  ⟨by decide, (depth_copy_semantics 500 obsCexF64).1 (by decide)⟩

/-- Claim C10: the marking step resets only the current-location channel and
writes the 1-valued 5x5 square centred on the agent's integer cell into both
the current-location channel and the next channel: the current-location
channel holds exactly the square (its fused value is discarded), the
past-position channel keeps its max-fused value outside the square, and a
square cell written there stays 1 in every subsequent fused map. -/
theorem location_marking {H K : ℕ} (P : ℚ) (L : ℚ → ℚ)
    (prev : MapState H K (ℤ × ℤ)) (tv : StepView H K (ℤ × ℤ))
    (ax ay : ℤ) (c : ℤ × ℤ) :
    ((fuseStep P L prev tv (inSquare ax ay)).currentLoc c =
        if inSquare ax ay c then 1 else 0) ∧
      (inSquare ax ay c = false →
        (fuseStep P L prev tv (inSquare ax ay)).visited c =
          max (prev.visited c) (clamp01 (tv.visited c))) ∧
      (inSquare ax ay c = true →
        ∀ steps,
          (iterateSteps P L (fuseStep P L prev tv (inSquare ax ay)) steps).visited c
            = 1) := by
  refine ⟨rfl, ?_, ?_⟩
  · intro h
    show (if inSquare ax ay c then 1
        else max (prev.visited c) (clamp01 (tv.visited c))) = _
    simp [h]
  · intro h steps
    refine visited_persists P L c steps _ ?_
    show (if inSquare ax ay c then (1 : ℚ)
        else max (prev.visited c) (clamp01 (tv.visited c))) = 1
    simp [h]

theorem location_marking_witness :
    (inSquare 0 0 (0, 0) = true) ∧
      (iterateSteps (-1) zeroLogit
          (fuseStep (-1) zeroLogit prevZeroZ tvZeroZ (inSquare 0 0))
          [(tvZeroZ, noMarkZ)]).visited (0, 0) = 1 :=
  ⟨by decide,
    (location_marking (-1) zeroLogit prevZeroZ tvZeroZ 0 0 (0, 0)).2.2 (by decide)
      [(tvZeroZ, noMarkZ)]⟩

end POLoMap
